import Mathlib

/-!
Verification development for the alex-articles blog demo.

The repository has two pieces of logic:
* a development-only Vite middleware (`apiPlugin` in `src/plugins/api-plugin.ts`)
  that serves a Markdown article as a JSON envelope, and
* a DOM enhancer (`CopyButtonsInjector` / `injectCopyButtonsIntoCodeBlocks` in
  `src/components/CopyButton.tsx`) that mounts a copy button into each
  non-empty `<pre>` code block and keeps doing so via a `MutationObserver`.

Both are embedded below as executable Lean functions, translated from the
TypeScript source.  Machine-level concerns (the HTTP socket, the real file
system, the real DOM tree, wall-clock time) are abstracted: the file system is
a partial map from path strings to file contents, the current timestamp is an
explicit `now` argument standing for `new Date().toISOString()` evaluated while
the request is handled, and the document is the list of `<pre>` elements the
scan visits.  String operations are implemented over character lists by
structural recursion so that every definition evaluates inside the kernel.
-/

/-! ## Small string utilities used by the embedding -/

/-- Split a list at the first occurrence of the character `c`, returning the
part before it and the part after it; `none` when `c` does not occur.  Used to
split a YAML line `key: value` at the first colon. -/
def splitFirst (c : Char) : List Char → Option (List Char × List Char)
  | [] => none
  | x :: xs =>
      if x = c then some ([], xs)
      else (splitFirst c xs).map (fun p => (x :: p.1, p.2))

/-- Remove the first occurrence of the character `c` from a list of
characters.  This is the semantics of JavaScript
`s.replace(/c/, ...)` with an empty replacement and no `g` flag: only the
first occurrence is removed. -/
def removeFirst (c : Char) : List Char → List Char
  | [] => []
  | x :: xs => if x = c then xs else x :: removeFirst c xs

/-- Split a character list on every occurrence of the delimiter `c`; the
delimiters are dropped and empty pieces are kept. -/
def splitCharAux (c : Char) : List Char → List Char → List String
  | acc, [] => [String.mk acc.reverse]
  | acc, x :: xs =>
      if x = c then String.mk acc.reverse :: splitCharAux c [] xs
      else splitCharAux c (x :: acc) xs

/-- Split a string on every occurrence of the character `c`. -/
def splitChar (c : Char) (s : String) : List String :=
  splitCharAux c [] s.data

/-- Join strings with a separator (inverse of `splitChar`). -/
def joinWith (sep : String) : List String → String
  | [] => ""
  | [s] => s
  | s :: ss => s ++ sep ++ joinWith sep ss

/-- Trim leading and trailing whitespace, the semantics of JavaScript
`String.prototype.trim` (and of YAML scalar trimming) on the whitespace
characters the repository can contain. -/
def jsTrim (s : String) : String :=
  String.mk (((s.data.dropWhile Char.isWhitespace).reverse.dropWhile Char.isWhitespace).reverse)

/-- The single-quote character, written via its code point. -/
def singleQuote : Char := Char.ofNat 39

/-- Strip one layer of matching surrounding single or double quotes, as the
YAML layer of gray-matter does for quoted scalar values. -/
def stripQuotes (s : String) : String :=
  match s.data with
  | [] => s
  | c :: cs =>
      match cs.getLast? with
      | none => s
      | some d =>
          if (c = singleQuote ∧ d = singleQuote) ∨ (c = '"' ∧ d = '"') then
            String.mk cs.dropLast
          else s

/-! ## The front-matter parser (model of the `gray-matter` dependency)

`api-plugin.ts` calls `matter(content)` from the `gray-matter` npm package.
The model below captures the delimited-front-matter convention the repository
relies on: a file that starts with a `---` line up to the next `---` line is a
block of `key: value` pairs, and the body is everything after the closing
delimiter (gray-matter strips the newline that follows the closing `---`,
which the line-based split below reproduces).  YAML scalar values are
modelled as strings with surrounding quotes stripped. -/

/-- Result of front-matter extraction: the key/value metadata and the body. -/
structure MatterResult where
  data : List (String × String)
  content : String
  deriving Repr, DecidableEq

/-- Parse one front-matter line `key: value` into a pair; the key and value
are trimmed and the value is unquoted.  A line with no colon is skipped. -/
def parseKV (line : String) : Option (String × String) :=
  (splitFirst ':' line.data).map
    (fun p => (jsTrim (String.mk p.1), stripQuotes (jsTrim (String.mk p.2))))

/-- Scan lines for the closing `---` delimiter, returning the front-matter
lines before it and the body lines after it. -/
def findClose : List String → Option (List String × List String)
  | [] => none
  | l :: ls =>
      if l = "---" then some ([], ls)
      else (findClose ls).map (fun p => (l :: p.1, p.2))

/-- Front-matter extraction (model of `matter` from gray-matter): when the
first line is `---` and a closing `---` line exists, the lines between them
are parsed as key/value data and the lines after become the content;
otherwise the data is empty and the content is the entire input. -/
def matter (s : String) : MatterResult :=
  match splitChar '\n' s with
  | "---" :: rest =>
      match findClose rest with
      | some (fm, body) =>
          { data := fm.filterMap parseKV, content := joinWith "\n" body }
      | none => { data := [], content := s }
  | _ => { data := [], content := s }

/-! ## The content endpoint (`apiPlugin` in `src/plugins/api-plugin.ts`) -/

/-- The mount point of the middleware, from `src/constants/api.ts`. -/
def API_ENDPOINT : String := "/api/article"

/-- The article base directory, from `src/constants/api.ts`:
`src/articles/${date.getFullYear()}`.  The year is the value of
`date.getFullYear()` at module load, passed here as a parameter. -/
def ARTICLE_PATH (year : String) : String := "src/articles/" ++ year

/-- JavaScript truthiness-based defaulting `v || d` for an optional string
field of the parsed front-matter: a missing key is `undefined` (falsy) and an
empty string is falsy, so both are replaced by the default. -/
def jsOr (v : Option String) (d : String) : String :=
  match v with
  | none => d
  | some s => if s = "" then d else s

/-- Slug extraction `url.pathname.replace(/\//, '')`: the first slash of the
pathname (the middleware sees the path with the `API_ENDPOINT` mount prefix
already stripped) is removed, the rest is kept verbatim. -/
def extractSlug (pathname : String) : String :=
  String.mk (removeFirst '/' pathname.data)

/-- Path construction from line 15 of the plugin:
`const filePath = ARTICLE_PATH + "/" + slug + "/article.md"`. -/
def filePathFor (articlePath slug : String) : String :=
  articlePath ++ "/" ++ slug ++ "/article.md"

/-- The `data` object of the JSON envelope. -/
structure ArticleData where
  title : String
  date : String
  slug : String
  deriving Repr, DecidableEq

/-- The successful JSON envelope `\x7b content, data \x7d`. -/
structure ApiSuccess where
  content : String
  data : ArticleData
  deriving Repr, DecidableEq

/-- The body written by `res.end`: either the JSON envelope (serialised with
`JSON.stringify` in the source) or a plain-text string. -/
inductive ResponseBody where
  | json (envelope : ApiSuccess)
  | text (s : String)
  deriving Repr, DecidableEq

/-- An HTTP response as the middleware produces it: a status code (Node
defaults to 200 when the handler never sets it), the `Content-Type` header if
one was set, and the body. -/
structure HttpResponse where
  status : Nat
  contentType : Option String
  body : ResponseBody
  deriving Repr, DecidableEq

/-- The request handler registered by `apiPlugin` (lines 11–37 of
`api-plugin.ts`).  `fs` is the file system as a partial map (`fs.existsSync`
is `(fs p).isSome` and `fs.readFileSync` is the mapped contents — the handler
checks and reads the same path, synchronously), `articlePath` is
`ARTICLE_PATH`, `now` is `new Date().toISOString()` at handling time, and
`pathname` is `url.pathname`. -/
def apiPlugin (fs : String → Option String) (articlePath now pathname : String) :
    HttpResponse :=
  let slug := extractSlug pathname
  let filePath := filePathFor articlePath slug
  match fs filePath with
  | some content =>
      let parsed := matter content
      { status := 200
        contentType := some "application/json"
        body := ResponseBody.json
          { content := parsed.content
            data :=
              { title := jsOr (parsed.data.lookup "title") "Untitled"
                date := jsOr (parsed.data.lookup "date") now
                slug := slug } } }
  | none =>
      { status := 404, contentType := none, body := ResponseBody.text "Article not found" }

/-- Title field of a response body, when it is a JSON envelope. -/
def bodyTitle : ResponseBody → Option String
  | ResponseBody.json e => some e.data.title
  | ResponseBody.text _ => none

/-- Date field of a response body, when it is a JSON envelope. -/
def bodyDate : ResponseBody → Option String
  | ResponseBody.json e => some e.data.date
  | ResponseBody.text _ => none

/-! ## POSIX path resolution (ambient file-system semantics)

`fs.existsSync`/`readFileSync` resolve `.` and `..` segments against the
process working directory; the model below normalises a relative path the way
the OS does, which is what makes a crafted slug with `..` segments reach
outside the configured base directory. -/

/-- Normalise path segments with an explicit stack: `..` pops the last kept
segment, `.` and empty segments are dropped, others are pushed. -/
def normSegs : List String → List String → List String
  | stack, [] => stack.reverse
  | stack, seg :: rest =>
      if seg = ".." then normSegs stack.tail rest
      else if seg = "." ∨ seg = "" then normSegs stack rest
      else normSegs (seg :: stack) rest

/-- Resolve a relative path: split on slashes, normalise segments, rejoin. -/
def resolvePath (p : String) : String :=
  joinWith "/" (normSegs [] (splitChar '/' p))

/-! ## The DOM enhancer (`src/components/CopyButton.tsx`)

The scan `injectCopyButtonsIntoCodeBlocks` visits every `<pre>` element of the
document.  A `<pre>` is modelled by the text content of the code it holds and
by the number of `[data-copy-btn]` wrapper elements mounted inside it
(`pre.querySelector('[data-copy-btn]')` is non-null exactly when that count is
non-zero).  The wrapper's own rendered text arrives only through a React root
mounted into the wrapper, and the wrapper check precedes the emptiness check,
so `content` stands for the text the emptiness check observes. -/

/-- A `<pre>` code block: its text content and how many enhancement wrappers
(`div[data-copy-btn]`) have been appended into it. -/
structure Pre where
  content : String
  wrappers : Nat
  deriving Repr, DecidableEq

/-- The per-block body of the scan (lines 70–91 of `CopyButton.tsx`): skip
when a `[data-copy-btn]` wrapper is already present, skip when the text
content is empty or whitespace-only, otherwise append one marked wrapper and
mount a copy-button root into it. -/
def enhancePre (p : Pre) : Pre :=
  if p.wrappers ≠ 0 then p
  else if jsTrim p.content = "" then p
  else { p with wrappers := p.wrappers + 1 }

/-- Whether the scan would mount a new control into this block: no wrapper
yet and non-whitespace content. -/
def wouldMount (p : Pre) : Bool :=
  p.wrappers == 0 && jsTrim p.content != ""

/-- Number of new React roots one scan over the document creates
(`createRoot` is called once per newly created wrapper). -/
def newMounts (d : List Pre) : Nat := (d.filter wouldMount).length

/-- The scan `injectCopyButtonsIntoCodeBlocks`: `document.querySelectorAll('pre')`
followed by the per-block body on each element. -/
def injectCopyButtonsIntoCodeBlocks (d : List Pre) : List Pre :=
  d.map enhancePre

/-- The state the `CopyButtonsInjector` effect owns: whether its
`MutationObserver` is currently observing, and how many copy-button roots its
scans have mounted (each `createRoot` call adds one; nothing in the component
ever unmounts them). -/
structure EnhancerState where
  observing : Bool
  mountedRoots : Nat
  deriving Repr, DecidableEq

/-- Activation (the `useEffect` body, lines 95–108): when
`document.getElementById('post-content')` is absent the effect returns at
once — no scan, no observer, no error.  Otherwise it runs one synchronous
scan over the existing content and then starts observing. -/
def activate (container : Option (List Pre)) : EnhancerState × Option (List Pre) :=
  match container with
  | none => ({ observing := false, mountedRoots := 0 }, none)
  | some d =>
      ({ observing := true, mountedRoots := newMounts d },
       some (injectCopyButtonsIntoCodeBlocks d))

/-- A mutation notification: the observer, while connected, invokes the scan;
after `disconnect` the callback is never invoked again, so the document is
left untouched. -/
def notify (st : EnhancerState) (d : List Pre) : EnhancerState × List Pre :=
  if st.observing then
    ({ st with mountedRoots := st.mountedRoots + newMounts d },
     injectCopyButtonsIntoCodeBlocks d)
  else (st, d)

/-- Deactivation (the effect cleanup, line 107): `() => observer.disconnect()`.
It stops observation and does nothing else — in particular it does not call
`root.unmount()` on any of the mounted roots. -/
def deactivate (st : EnhancerState) : EnhancerState :=
  { st with observing := false }

/-! ## Concrete artefacts used by witnesses and counterexamples -/

/-- A one-file file system: `path` maps to `contents`, everything else is
absent. -/
def fsWith (path contents : String) : String → Option String :=
  fun p => if p = path then some contents else none

/-- An article file whose front-matter has an empty (falsy) `title` value and
a normal `date` value. -/
def emptyTitleFile : String := "---\ntitle:\ndate: 2025-01-01\n---\nbody"

/-- An article file whose front-matter has empty (falsy) `title` and `date`
values. -/
def emptyFieldsFile : String := "---\ntitle:\ndate:\n---\nx"

/-- An article file with ordinary non-empty `title` and `date` values. -/
def helloFile : String := "---\ntitle: Hello\ndate: 2025-06-26\n---\nbody"

/-! ## Helper lemmas about the scan -/

theorem wouldMount_enhancePre (p : Pre) : wouldMount (enhancePre p) = false := by
  rcases p with ⟨c, w⟩
  unfold enhancePre wouldMount
  by_cases h1 : w ≠ 0
  · simp [h1]
  · push_neg at h1
    subst h1
    by_cases h2 : jsTrim c = ""
    · simp [h2]
    · simp [h2]

theorem enhancePre_of_not_wouldMount (p : Pre) (h : wouldMount p = false) :
    enhancePre p = p := by
  rcases p with ⟨c, w⟩
  unfold wouldMount at h
  unfold enhancePre
  by_cases h1 : w ≠ 0
  · simp [h1]
  · push_neg at h1
    subst h1
    simp at h
    simp [h]

theorem enhancePre_idem (p : Pre) : enhancePre (enhancePre p) = enhancePre p :=
  enhancePre_of_not_wouldMount _ (wouldMount_enhancePre p)

theorem inject_idem (d : List Pre) :
    injectCopyButtonsIntoCodeBlocks (injectCopyButtonsIntoCodeBlocks d) =
      injectCopyButtonsIntoCodeBlocks d := by
  unfold injectCopyButtonsIntoCodeBlocks
  rw [List.map_map]
  exact List.map_congr_left fun p _ => enhancePre_idem p

theorem newMounts_inject (d : List Pre) :
    newMounts (injectCopyButtonsIntoCodeBlocks d) = 0 := by
  induction d with
  | nil => rfl
  | cons p d ih =>
      unfold newMounts injectCopyButtonsIntoCodeBlocks at *
      simp [List.filter_cons, wouldMount_enhancePre p, ih]

theorem inject_iterate (n : Nat) (d : List Pre) :
    injectCopyButtonsIntoCodeBlocks^[n + 1] d = injectCopyButtonsIntoCodeBlocks d := by
  induction n with
  | zero => rfl
  | succ n ih =>
      rw [Function.iterate_succ_apply', ih, inject_idem]

/-! ## Claim theorems -/

/-- C1 (counterexample): the claim fails when a front-matter value is falsy.
The file `emptyTitleFile` contains a title `""` and a date `"2025-01-01"`,
yet the endpoint does not answer with `title := ""` — truthiness defaulting
replaces it with `"Untitled"`, so the body is not exactly the envelope the
claim requires. -/
theorem c1_counterexample :
    (matter emptyTitleFile).data.lookup "title" = some "" ∧
    (matter emptyTitleFile).data.lookup "date" = some "2025-01-01" ∧
    apiPlugin (fsWith "src/articles/2025/a/article.md" emptyTitleFile)
        "src/articles/2025" "NOW" "/a" ≠
      { status := 200
        contentType := some "application/json"
        body := ResponseBody.json
          { content := "body"
            data := { title := "", date := "2025-01-01", slug := "a" } } } := by
  refine ⟨rfl, rfl, ?_⟩
  decide

/-- C1 (amended: the title and date values must additionally be non-empty,
i.e. truthy): for every slug whose article file exists and whose front-matter
contains a non-empty title `T` and a non-empty date `D`, the endpoint
responds with status 200, a JSON content-type, and a JSON body exactly
`\x7b content := body-after-front-matter, data := \x7b title := T, date := D,
slug := requested slug \x7d \x7d`. -/
theorem c1_content_success (fs : String → Option String)
    (articlePath now pathname c T D : String)
    (hfs : fs (filePathFor articlePath (extractSlug pathname)) = some c)
    (hT : (matter c).data.lookup "title" = some T) (hT0 : T ≠ "")
    (hD : (matter c).data.lookup "date" = some D) (hD0 : D ≠ "") :
    apiPlugin fs articlePath now pathname =
      { status := 200
        contentType := some "application/json"
        body := ResponseBody.json
          { content := (matter c).content
            data := { title := T, date := D, slug := extractSlug pathname } } } := by
  unfold apiPlugin
  simp [hfs, hT, hD, hT0, hD0, jsOr]

/-- C1 witness: the amended theorem applied to a concrete file system holding
`helloFile` at the path for slug `react/mutation-observer`. -/
theorem c1_content_success_witness :
    apiPlugin (fsWith "src/articles/2025/react/mutation-observer/article.md" helloFile)
        "src/articles/2025" "NOW" "/react/mutation-observer" =
      { status := 200
        contentType := some "application/json"
        body := ResponseBody.json
          { content := (matter helloFile).content
            data := { title := "Hello", date := "2025-06-26",
                      slug := extractSlug "/react/mutation-observer" } } } :=
  c1_content_success
    (fsWith "src/articles/2025/react/mutation-observer/article.md" helloFile)
    "src/articles/2025" "NOW" "/react/mutation-observer" helloFile "Hello" "2025-06-26"
    (by decide) (by decide) (by decide) (by decide) (by decide)

/-- C2: for every slug whose article file does not exist, the endpoint
responds with status 404, sets no content-type, and writes the plain-text
body `Article not found` — no JSON envelope. -/
theorem c2_not_found (fs : String → Option String) (articlePath now pathname : String)
    (h : fs (filePathFor articlePath (extractSlug pathname)) = none) :
    apiPlugin fs articlePath now pathname =
      { status := 404, contentType := none,
        body := ResponseBody.text "Article not found" } := by
  unfold apiPlugin
  simp [h]

/-- C2 witness: the empty file system at slug `x`. -/
theorem c2_not_found_witness :
    apiPlugin (fun _ => none) "src/articles/2025" "NOW" "/x" =
      { status := 404, contentType := none,
        body := ResponseBody.text "Article not found" } :=
  c2_not_found (fun _ => none) "src/articles/2025" "NOW" "/x" rfl

/-- C3: for every slug whose article file exists, if the front-matter omits
the `title` key the response's title is `"Untitled"`, and if it omits the
`date` key the response's date is the `now` timestamp
(`new Date().toISOString()` evaluated while the request is handled). -/
theorem c3_defaults (fs : String → Option String) (articlePath now pathname c : String)
    (hfs : fs (filePathFor articlePath (extractSlug pathname)) = some c) :
    ((matter c).data.lookup "title" = none →
        bodyTitle (apiPlugin fs articlePath now pathname).body = some "Untitled") ∧
    ((matter c).data.lookup "date" = none →
        bodyDate (apiPlugin fs articlePath now pathname).body = some now) := by
  constructor
  · intro h
    unfold apiPlugin
    simp [hfs, h, jsOr, bodyTitle]
  · intro h
    unfold apiPlugin
    simp [hfs, h, jsOr, bodyDate]

/-- C3 witness: a file with no front-matter block at all, so both keys are
absent and both defaults apply. -/
theorem c3_defaults_witness :
    bodyTitle (apiPlugin (fsWith "src/articles/2025/a/article.md" "no front matter")
        "src/articles/2025" "2025-06-26T00:00:00.000Z" "/a").body = some "Untitled" ∧
    bodyDate (apiPlugin (fsWith "src/articles/2025/a/article.md" "no front matter")
        "src/articles/2025" "2025-06-26T00:00:00.000Z" "/a").body =
      some "2025-06-26T00:00:00.000Z" :=
  ⟨(c3_defaults (fsWith "src/articles/2025/a/article.md" "no front matter")
      "src/articles/2025" "2025-06-26T00:00:00.000Z" "/a" "no front matter"
      (by decide)).1 (by decide),
   (c3_defaults (fsWith "src/articles/2025/a/article.md" "no front matter")
      "src/articles/2025" "2025-06-26T00:00:00.000Z" "/a" "no front matter"
      (by decide)).2 (by decide)⟩

/-- C4: for every code block, at most one enhancement wrapper is ever
mounted, however many times the scan runs: any number of further runs after
the first changes nothing, a run over an already-enhanced document creates
zero new mounts, and one run takes an unenhanced block to at most one
wrapper. -/
theorem c4_at_most_one_wrapper (d : List Pre) (n : Nat) (p : Pre)
    (hp : p.wrappers = 0) :
    injectCopyButtonsIntoCodeBlocks^[n + 1] d = injectCopyButtonsIntoCodeBlocks d ∧
    newMounts (injectCopyButtonsIntoCodeBlocks d) = 0 ∧
    (enhancePre p).wrappers ≤ 1 := by
  refine ⟨inject_iterate n d, newMounts_inject d, ?_⟩
  unfold enhancePre
  simp [hp]
  split
  · simp [hp]
  · simp [hp]

/-- C4 witness: a document with one non-empty code block. -/
theorem c4_at_most_one_wrapper_witness :
    injectCopyButtonsIntoCodeBlocks^[1 + 1] [Pre.mk "code" 0] =
      injectCopyButtonsIntoCodeBlocks [Pre.mk "code" 0] ∧
    newMounts (injectCopyButtonsIntoCodeBlocks [Pre.mk "code" 0]) = 0 ∧
    (enhancePre (Pre.mk "code" 0)).wrappers ≤ 1 :=
  c4_at_most_one_wrapper [Pre.mk "code" 0] 1 (Pre.mk "code" 0) rfl

/-- C5 (counterexample): after activating over a document with one non-empty
code block the enhancer owns one mounted root; deactivation stops observation
but the mounted root is not released, so deactivation does not release every
mounted control as the claim states. -/
theorem c5_counterexample :
    (activate (some [Pre.mk "code" 0])).1.mountedRoots = 1 ∧
    (deactivate (activate (some [Pre.mk "code" 0])).1).observing = false ∧
    (deactivate (activate (some [Pre.mk "code" 0])).1).mountedRoots ≠ 0 := by
  decide

/-- C5 (amended: deactivation stops the mutation observation but releases no
mounted controls — the copy-button roots created by the scans stay mounted,
their count unchanged, until the surrounding DOM is discarded externally). -/
theorem c5_deactivate_amended (st : EnhancerState) :
    (deactivate st).observing = false ∧
    (deactivate st).mountedRoots = st.mountedRoots :=
  ⟨rfl, rfl⟩

/-- C6: after deactivation, a mutation notification in the formerly observed
container invokes no scan: the document is unchanged (zero new mounted
controls) and the enhancer state is unchanged. -/
theorem c6_teardown_no_new_mounts (st : EnhancerState) (d : List Pre) :
    notify (deactivate st) d = (deactivate st, d) := rfl

/-- C7: the endpoint consults the file system at exactly
`articlePath ++ "/" ++ slug ++ "/article.md"` for every slug, with no
sanitization of the slug (restricting the file system to that single path
never changes the response), and a crafted slug containing `..` parent
segments makes the constructed path resolve outside the configured base
directory `src/articles/<year>`. -/
theorem c7_path_traversal (articlePath s : String) :
    filePathFor articlePath s = articlePath ++ "/" ++ s ++ "/article.md" ∧
    (∀ (fs : String → Option String) (now pathname : String),
        apiPlugin fs articlePath now pathname =
          apiPlugin
            (fun p => if p = filePathFor articlePath (extractSlug pathname) then fs p else none)
            articlePath now pathname) ∧
    ∃ s0 : String,
      (splitChar '/' s0).contains ".." = true ∧
      ((ARTICLE_PATH "2025").data.isPrefixOf
          (resolvePath (filePathFor (ARTICLE_PATH "2025") s0)).data) = false := by
  refine ⟨rfl, ?_, "../../secret", by decide, by decide⟩
  intro fs now pathname
  unfold apiPlugin
  simp

/-- C8: a code block whose text content is empty or whitespace-only never
receives a mounted control, on the initial pass and on every later scan. -/
theorem c8_empty_skip (p : Pre) (n : Nat) (h : jsTrim p.content = "")
    (h0 : p.wrappers = 0) :
    (enhancePre^[n] p).wrappers = 0 := by
  have hfix : enhancePre p = p := by
    unfold enhancePre
    simp [h0, h]
  rw [Function.iterate_fixed hfix, h0]

/-- C8 witness: a whitespace-only block scanned three times. -/
theorem c8_empty_skip_witness :
    (enhancePre^[3] (Pre.mk "  \n " 0)).wrappers = 0 :=
  c8_empty_skip (Pre.mk "  \n " 0) 3 (by decide) rfl

/-- C9: when the designated `post-content` container is absent, activation is
a no-op: no scan runs (no document is produced or changed), no observation is
started, no roots are mounted, and the function is total so no error is
raised. -/
theorem c9_absent_container_noop :
    activate none = ({ observing := false, mountedRoots := 0 }, none) := rfl

/-- C10: for every slug whose article file exists, a falsy (empty-string)
`title` or `date` value in the front-matter is replaced by the default
exactly as if the key were absent: defaulting follows the truthiness of the
parsed value, not the presence of the key. -/
theorem c10_falsy_defaults (fs : String → Option String)
    (articlePath now pathname c : String)
    (hfs : fs (filePathFor articlePath (extractSlug pathname)) = some c) :
    ((matter c).data.lookup "title" = some "" →
        bodyTitle (apiPlugin fs articlePath now pathname).body = some "Untitled") ∧
    ((matter c).data.lookup "date" = some "" →
        bodyDate (apiPlugin fs articlePath now pathname).body = some now) := by
  constructor
  · intro h
    unfold apiPlugin
    simp [hfs, h, jsOr, bodyTitle]
  · intro h
    unfold apiPlugin
    simp [hfs, h, jsOr, bodyDate]

/-- C10 witness: a file whose front-matter has `title:` and `date:` with
empty values; both keys are present with falsy values and both defaults
apply. -/
theorem c10_falsy_defaults_witness :
    bodyTitle (apiPlugin (fsWith "src/articles/2025/a/article.md" emptyFieldsFile)
        "src/articles/2025" "2025-06-26T00:00:00.000Z" "/a").body = some "Untitled" ∧
    bodyDate (apiPlugin (fsWith "src/articles/2025/a/article.md" emptyFieldsFile)
        "src/articles/2025" "2025-06-26T00:00:00.000Z" "/a").body =
      some "2025-06-26T00:00:00.000Z" :=
  ⟨(c10_falsy_defaults (fsWith "src/articles/2025/a/article.md" emptyFieldsFile)
      "src/articles/2025" "2025-06-26T00:00:00.000Z" "/a" emptyFieldsFile
      (by decide)).1 (by decide),
   (c10_falsy_defaults (fsWith "src/articles/2025/a/article.md" emptyFieldsFile)
      "src/articles/2025" "2025-06-26T00:00:00.000Z" "/a" emptyFieldsFile
      (by decide)).2 (by decide)⟩
